import Mathlib

/-!
# GlobalTrotter itinerary engine — verification development

Shallow embedding of the itinerary consistency and budget-aggregation
engine of the GlobalTrotter trip-planner: the budget aggregator and pace
classifier, the conflict detector's date pass, the stop reordering
handler, the share-link flow, and the trip export/import codec with its
two-phase insert.

Modelling conventions:
* Calendar dates (date-only ISO strings in the source) are embedded as
  `Int` epoch-day numbers; `differenceInDays(parseISO e, parseISO s)`
  on date-only strings is exactly `e - s`, and `new Date(d).getTime()`
  is `d * 86400000`.
* JS numbers are embedded as `ℚ` (costs) or `Int` (order indices, day
  counts); all arithmetic in scope is exact in the source's range.
* Nullable fields are `Option`; the optional `activities` array on a
  loaded stop is a plain list (the source defaults a missing array to
  `[]` at every use site).
* Randomly generated identifiers and codes are passed in explicitly as
  parameters, one per `Math.random()` draw / database-assigned id.
-/

/-- `TripActivity` record (supabase.ts). `scheduled_date` is a date-only
string in the source, embedded as an epoch-day number. -/
structure TripActivity where
  id : String
  trip_stop_id : String
  activity_id : Option String
  name : String
  description : Option String
  scheduled_date : Option Int
  scheduled_time : Option String
  duration_hours : ℚ
  estimated_cost : ℚ
  order_index : Int
  category : Option String
  is_custom : Bool
deriving Repr, DecidableEq, Inhabited

/-- `TripStop` record (supabase.ts), with the `activities` array the
screens attach after loading (defaulted to `[]` when absent). -/
structure TripStop where
  id : String
  trip_id : String
  city_id : Option String
  city_name : String
  country : Option String
  start_date : Option Int
  end_date : Option Int
  order_index : Int
  transport_cost : ℚ
  accommodation_cost : ℚ
  notes : Option String
  activities : List TripActivity
deriving Repr, DecidableEq, Inhabited

/-- `Trip` record (supabase.ts). -/
structure Trip where
  id : String
  user_id : String
  name : String
  description : Option String
  start_date : Option Int
  end_date : Option Int
  cover_image : Option String
  is_public : Bool
  share_code : Option String
  total_budget : ℚ
  created_at : String
  updated_at : String
deriving Repr, DecidableEq, Inhabited

/-- JS `a.includes(b)` on strings: substring containment, embedded on
character lists. -/
def strIncludes (s t : List Char) : Bool := decide (t <:+: s)

/-- JS `String.prototype.toLowerCase`, embedded as a per-character map
(the category labels in scope are plain ASCII text). -/
def jsToLower (s : String) : List Char := s.toList.map Char.toLower

/-- The category test of `calculateCosts` (budget-screen.tsx line 89):
`activity.category?.toLowerCase().includes("food") ||
 activity.category?.toLowerCase().includes("dining")`; the optional
chaining makes a `null` category fail both tests. -/
def isFoodOrDining (category : Option String) : Bool :=
  match category with
  | none => false
  | some c => strIncludes (jsToLower c) "food".toList || strIncludes (jsToLower c) "dining".toList

/-- The four accumulators of `calculateCosts` (budget-screen.tsx). -/
structure CostBreakdown where
  transport : ℚ
  accommodation : ℚ
  activities : ℚ
  meals : ℚ
deriving Repr, DecidableEq

/-- Inner loop body of `calculateCosts`: route one activity's estimated
cost to `meals` or `activities`. -/
def activityStep (acc : CostBreakdown) (activity : TripActivity) : CostBreakdown :=
  let cost := activity.estimated_cost
  if isFoodOrDining activity.category then
    { acc with meals := acc.meals + cost }
  else
    { acc with activities := acc.activities + cost }

/-- Outer loop body of `calculateCosts`: add one stop's transport and
accommodation costs, then fold its activities. -/
def costsStep (acc : CostBreakdown) (stop : TripStop) : CostBreakdown :=
  stop.activities.foldl activityStep
    { acc with
      transport := acc.transport + stop.transport_cost
      accommodation := acc.accommodation + stop.accommodation_cost }

/-- `calculateCosts` (budget-screen.tsx lines 78-101).  After the
accumulation pass, `meals = meals || estimatedMeals` substitutes the
per-stop fallback exactly when the accumulated meals figure is falsy,
i.e. zero. -/
def calculateCosts (stops : List TripStop) : CostBreakdown :=
  let sums := stops.foldl costsStep ⟨0, 0, 0, 0⟩
  let estimatedMeals : ℚ := (stops.length : ℚ) * 1500
  { sums with meals := if sums.meals = 0 then estimatedMeals else sums.meals }

/-- `totalEstimated` (budget-screen.tsx line 104): sum of the four
breakdown fields. -/
def totalEstimated (stops : List TripStop) : ℚ :=
  let costs := calculateCosts stops
  costs.transport + costs.accommodation + costs.activities + costs.meals

/-- `averagePerDay` (budget-screen.tsx lines 126-128):
`totalEstimated / Math.max(1, Math.ceil((endMs - startMs) / 86400000))`
when both trip dates are present, and `0` otherwise. -/
def averagePerDay (trip : Trip) (stops : List TripStop) : ℚ :=
  match trip.start_date, trip.end_date with
  | some s, some e =>
      totalEstimated stops /
        ((max 1 (Int.ceil (((e * 86400000 : ℚ) - (s * 86400000 : ℚ)) / (1000 * 60 * 60 * 24))) : ℤ) : ℚ)
  | _, _ => 0

/-- `stops.reduce((sum, stop) => sum + (stop.activities?.length || 0), 0)`
(trip-summary-panel.tsx line 37). -/
def totalActivities (stops : List TripStop) : ℕ :=
  (stops.map (fun stop => stop.activities.length)).sum

/-- `calculateTripPace` (trip-summary-panel.tsx lines 31-47), label
component.  When `totalDays = 0` the JS division yields `Infinity` or
`NaN`, and either falls through the two comparisons into the final
branch, so that case is embedded as `"Packed"` directly. -/
def calculateTripPace (trip : Trip) (stops : List TripStop) : String :=
  match trip.start_date, trip.end_date with
  | some s, some e =>
      if stops.length = 0 then "Planning"
      else
        let totalDays : Int := (e - s) + 1
        if totalDays = 0 then "Packed"
        else
          let activitiesPerDay : ℚ := (totalActivities stops : ℚ) / (totalDays : ℚ)
          if activitiesPerDay < 2 then "Relaxed"
          else if activitiesPerDay ≤ 4 then "Balanced"
          else "Packed"
  | _, _ => "Planning"

/-- Transport cost summed over all stops. -/
def sumTransport (stops : List TripStop) : ℚ := (stops.map (fun s => s.transport_cost)).sum

/-- Accommodation cost summed over all stops. -/
def sumAccommodation (stops : List TripStop) : ℚ := (stops.map (fun s => s.accommodation_cost)).sum

/-- Estimated cost of the non-food activities of one stop list. -/
def sumNonFood (stops : List TripStop) : ℚ :=
  (stops.map (fun s => ((s.activities.filter (fun a => !(isFoodOrDining a.category))).map
    (fun a => a.estimated_cost)).sum)).sum

/-- Estimated cost of the food/dining activities of one stop list. -/
def sumFood (stops : List TripStop) : ℚ :=
  (stops.map (fun s => ((s.activities.filter (fun a => isFoodOrDining a.category)).map
    (fun a => a.estimated_cost)).sum)).sum

/-- Definition following the spec's words, for comparison with the code:
`computeDurationDays(trip)` is `(end - start in whole days) + 1`
(inclusive of both endpoints) when both dates are present, else `0`. -/
def specDurationDays (trip : Trip) : Int :=
  match trip.start_date, trip.end_date with
  | some s, some e => (e - s) + 1
  | _, _ => 0

/-- Definition following the spec's words, for comparison with the code:
`computeAverageDailyCost` is `computeTotalEstimated / max(1, computeDurationDays)`. -/
def specAverageDailyCost (trip : Trip) (stops : List TripStop) : ℚ :=
  totalEstimated stops / ((max 1 (specDurationDays trip) : ℤ) : ℚ)

/-- One advisory alert of the conflict detector (conflict-alerts.tsx):
the `{type, message, severity}` triple (the icon is presentation only). -/
structure Alert where
  type : String
  message : String
  severity : String
deriving Repr, DecidableEq

/-- The message template of the out-of-range pass:
`Activity "NAME" in CITY is scheduled outside city dates`. -/
def dateConflictMessage (activity : TripActivity) (stop : TripStop) : String :=
  "Activity \"" ++ activity.name ++ "\" in " ++ stop.city_name ++ " is scheduled outside city dates"

/-- Third pass of `ConflictAlerts` (conflict-alerts.tsx lines 77-97): for
each stop with both dates set, each activity with a scheduled date
outside the inclusive `[stop.start_date, stop.end_date]` interval
(`!isWithinInterval`, both endpoints inclusive) contributes one
`"date"` severity-`"error"` alert.  The first two passes emit only
`"budget"` and `"activities"` typed alerts and are independent. -/
def dateConflictAlerts (stops : List TripStop) : List Alert :=
  stops.flatMap (fun stop =>
    match stop.start_date, stop.end_date with
    | some stopStart, some stopEnd =>
        stop.activities.flatMap (fun activity =>
          match activity.scheduled_date with
          | some activityDate =>
              if stopStart ≤ activityDate ∧ activityDate ≤ stopEnd then []
              else [{ type := "date", message := dateConflictMessage activity stop, severity := "error" }]
          | none => [])
    | _, _ => [])

/-- The `direction` parameter of `handleReorderStop`. -/
inductive MoveDir where
  | up
  | down
deriving Repr, DecidableEq

/-- `handleReorderStop` (TripBuilder, lines 621-656): locate the stop in
the loaded array, compute the adjacent target index, no-op when out of
bounds, otherwise swap the two stops' `order_index` values (persisting
exactly those two records) and swap their array positions in the local
state.  Returns the resulting stop array. -/
def handleReorderStop (stops : List TripStop) (stopId : String) (direction : MoveDir) : List TripStop :=
  match stops.findIdx? (fun s => s.id == stopId) with
  | none => stops
  | some currentIndex =>
      let newIndex : Int := if direction = MoveDir.up then (currentIndex : Int) - 1 else (currentIndex : Int) + 1
      if newIndex < 0 || (stops.length : Int) ≤ newIndex then stops
      else
        let a := stops.getD currentIndex default
        let b := stops.getD newIndex.toNat default
        (stops.set currentIndex { b with order_index := a.order_index }).set newIndex.toNat
          { a with order_index := b.order_index }

/-- The `newStop` form state of the trip builder. -/
structure NewStopForm where
  city_name : String
  country : String
  start_date : Option Int
  end_date : Option Int
deriving Repr, DecidableEq

/-- `handleAddStop` (TripBuilder, lines 523-552): reject a blank city
name, otherwise insert a stop with `order_index: stops.length` and
append the created record (with an empty activities array) to the
loaded list. -/
def handleAddStop (trip : Trip) (stops : List TripStop) (newStop : NewStopForm) (freshId : String) :
    List TripStop :=
  if newStop.city_name.trim = "" then stops
  else
    stops ++ [{ id := freshId, trip_id := trip.id, city_id := none,
                city_name := newStop.city_name, country := some newStop.country,
                start_date := newStop.start_date, end_date := newStop.end_date,
                order_index := (stops.length : Int), transport_cost := 0,
                accommodation_cost := 0, notes := none, activities := [] }]

/-- Stop-creating part of `handleAddSpot` (budget-screen.tsx lines
897-927): look the trip's stops up by `trip_id` and `city_name`; when no
matching stop exists, insert a new stop with `order_index: 0`.  The
subsequent `trip_activities` insert touches no `trip_stops` row. -/
def handleAddSpot (trip : Trip) (existingStops : List TripStop) (cityName country : String)
    (freshStopId : String) : List TripStop :=
  match existingStops.find? (fun s => s.trip_id == trip.id && s.city_name == cityName) with
  | some _ => existingStops
  | none =>
      existingStops ++ [{ id := freshStopId, trip_id := trip.id, city_id := none,
                          city_name := cityName, country := some country, start_date := none,
                          end_date := none, order_index := 0, transport_cost := 0,
                          accommodation_cost := 0, notes := none, activities := [] }]

/-- JS falsiness of a nullable string: `null`/`undefined` and `""` are
falsy, every other string is truthy. -/
def jsFalsyStr : Option String → Bool
  | none => true
  | some c => c == ""

/-- JS `x || d` on a nullable string. -/
def jsOrStr (x : Option String) (d : String) : String :=
  match x with
  | none => d
  | some c => if c = "" then d else c

/-- `handleShare` (TripView, lines 76-108).  `rnd1` and `rnd2` are the
two independent `Math.random().toString(36).substring(2, 10)` draws at
lines 80 and 88.  When the trip has no share code the update persists
`share_code = rnd1, is_public = true`, but the URL is then built from
`trip.share_code || rnd2` over the unchanged local `trip` object.
Returns (the trip row as persisted, the code carried by the copied
URL's `share` query parameter). -/
def handleShare (trip : Trip) (rnd1 rnd2 : String) : Trip × String :=
  let persisted :=
    if jsFalsyStr trip.share_code then { trip with share_code := some rnd1, is_public := true }
    else trip
  let shareCode := jsOrStr trip.share_code rnd2
  (persisted, shareCode)

/-- `loadSharedTrip` (shared-trip-view.tsx lines 63-71): resolve a share
code by equality on `share_code` together with `is_public = true`. -/
def loadSharedTrip (trips : List Trip) (shareCode : String) : Option Trip :=
  trips.find? (fun t => t.share_code == some shareCode && t.is_public)

/-- Parsed JSON value, as produced by `JSON.parse`: the runtime value
`validateImportedData` inspects.  A missing object property behaves like
`null` in every check below (both are falsy and neither is a string or
an array), so absent properties are embedded as `null`. -/
inductive JValue where
  | null
  | bool (b : Bool)
  | num (q : ℚ)
  | str (s : String)
  | arr (elems : List JValue)
  | obj (fields : List (String × JValue))

/-- JS truthiness of a parsed JSON value. -/
def jsTruthy : JValue → Bool
  | .null => false
  | .bool b => b
  | .num q => !(q == 0)
  | .str s => !(s == "")
  | .arr _ => true
  | .obj _ => true

/-- JS `typeof v === 'object'` (true for objects, arrays and `null`). -/
def typeofIsObject : JValue → Bool
  | .null => true
  | .arr _ => true
  | .obj _ => true
  | _ => false

/-- JS `typeof v === 'string'`. -/
def isString : JValue → Bool
  | .str _ => true
  | _ => false

/-- JS `Array.isArray(v)`. -/
def isArray : JValue → Bool
  | .arr _ => true
  | _ => false

/-- JS property access `v.k` on a parsed JSON value (missing property or
non-object receiver: `undefined`, embedded as `null`, see `JValue`). -/
def getField : JValue → String → JValue
  | .obj fields, k =>
      match fields.lookup k with
      | some v => v
      | none => .null
  | _, _ => .null

/-- `validateImportedData` (trip-export.ts lines 53-63), check for check. -/
def validateImportedData (data : JValue) : Bool :=
  if !(jsTruthy data) || !(typeofIsObject data) then false
  else if !(jsTruthy (getField data "trip")) || !(typeofIsObject (getField data "trip")) then false
  else if !(isArray (getField data "stops")) then false
  else if !(isArray (getField data "activities")) then false
  else if !(jsTruthy (getField (getField data "trip") "name"))
          || !(isString (getField (getField data "trip") "name")) then false
  else true

/-- `importTrip` (trip-export.ts lines 69-97), parse step aside: resolve
the parsed document when `validateImportedData` accepts it, `null`
otherwise. -/
def importTrip (data : JValue) : Option JValue :=
  if validateImportedData data then some data else none

/-- The persisted entities the import flow writes to. -/
structure Store where
  trips : List Trip
  trip_stops : List TripStop
  trip_activities : List TripActivity

/-- Entry gate of `handleImport` (TripView, lines 130-145): when
`importTrip` yields `null` the handler reports "Invalid trip file
format" and returns before issuing any store operation; only a
validated document reaches the insert phase (`performInserts` stands
for the two-phase insert, verified separately on typed documents). -/
def handleImportGate (data : JValue) (store : Store)
    (performInserts : JValue → Store → Store) : Store :=
  match importTrip data with
  | none => store
  | some imported => performInserts imported store

/-- `ExportedTrip` document shape (trip-export.ts). -/
structure ExportedTrip where
  version : String
  trip : Trip
  stops : List TripStop
  activities : List TripActivity
  exportedAt : String
deriving Repr, DecidableEq

/-- `EXPORT_VERSION` (trip-export.ts line 19). -/
def EXPORT_VERSION : String := "1.0"

/-- Document built by `exportTrip` (trip-export.ts lines 25-48); the
file download around it is presentation. -/
def exportTrip (trip : Trip) (stops : List TripStop) (activities : List TripActivity)
    (exportedAt : String) : ExportedTrip :=
  { version := EXPORT_VERSION, trip := trip, stops := stops, activities := activities,
    exportedAt := exportedAt }

/-- JS `x || d` on a number field (`0` is falsy). -/
def jsOrInt (x d : Int) : Int := if x = 0 then d else x

/-- `Omit<Trip, 'id' | 'created_at' | 'updated_at'>`: the trip payload
`prepareImportedTripForInsert` builds. -/
structure PreparedTrip where
  user_id : String
  name : String
  description : Option String
  start_date : Option Int
  end_date : Option Int
  cover_image : Option String
  is_public : Bool
  share_code : Option String
  total_budget : ℚ
deriving Repr, DecidableEq

/-- `Omit<TripStop, 'id' | 'trip_id'> & { _original_stop_id }`: a stop
payload with the side-channel field (named `original_stop_id` here). -/
structure PreparedStop where
  city_id : Option String
  city_name : String
  country : Option String
  start_date : Option Int
  end_date : Option Int
  order_index : Int
  transport_cost : ℚ
  accommodation_cost : ℚ
  notes : Option String
  activities : List TripActivity
  original_stop_id : String
deriving Repr, DecidableEq

/-- `Omit<TripActivity, 'id' | 'trip_stop_id'> & { _original_stop_id }`:
an activity payload carrying its original stop id. -/
structure PreparedActivity where
  activity_id : Option String
  name : String
  description : Option String
  scheduled_date : Option Int
  scheduled_time : Option String
  duration_hours : ℚ
  estimated_cost : ℚ
  order_index : Int
  category : Option String
  is_custom : Bool
  original_stop_id : String
deriving Repr, DecidableEq

/-- `prepareImportedTripForInsert` (trip-export.ts lines 103-146). -/
def prepareImportedTripForInsert (importedData : ExportedTrip) (userId : String) :
    PreparedTrip × List PreparedStop × List PreparedActivity :=
  let trip := importedData.trip
  let newTrip : PreparedTrip :=
    { user_id := userId, name := trip.name ++ " (Imported)", description := trip.description,
      start_date := trip.start_date, end_date := trip.end_date, cover_image := trip.cover_image,
      is_public := false, share_code := none, total_budget := trip.total_budget }
  let newStops := importedData.stops.map (fun stop =>
    ({ city_id := stop.city_id, city_name := stop.city_name, country := stop.country,
       start_date := stop.start_date, end_date := stop.end_date,
       order_index := jsOrInt stop.order_index 0, transport_cost := stop.transport_cost,
       accommodation_cost := stop.accommodation_cost, notes := stop.notes,
       activities := stop.activities, original_stop_id := stop.id } : PreparedStop))
  let newActivities := importedData.activities.map (fun activity =>
    ({ activity_id := activity.activity_id, name := activity.name,
       description := activity.description, scheduled_date := activity.scheduled_date,
       scheduled_time := activity.scheduled_time, duration_hours := activity.duration_hours,
       estimated_cost := activity.estimated_cost, order_index := jsOrInt activity.order_index 0,
       category := activity.category, is_custom := activity.is_custom,
       original_stop_id := activity.trip_stop_id } : PreparedActivity))
  (newTrip, newStops, newActivities)

/-- Trip insert of `handleImport` (lines 149-161): the prepared trip
plus a freshly drawn `share_code`; `newId` and `now` stand for the
store-assigned identifier and timestamps. -/
def insertImportedTrip (prep : PreparedTrip) (newId freshShareCode now : String) : Trip :=
  { id := newId, user_id := prep.user_id, name := prep.name, description := prep.description,
    start_date := prep.start_date, end_date := prep.end_date, cover_image := prep.cover_image,
    is_public := prep.is_public, share_code := some freshShareCode,
    total_budget := prep.total_budget, created_at := now, updated_at := now }

/-- Stop-insert loop of `handleImport` (lines 163-180): insert each
prepared stop under the created trip's id (fresh ids supplied by the
store) and record the `_original_stop_id → new id` pair in `stopIdMap`
when the side-channel field is truthy. -/
def insertImportedStops (tripId : String) (preps : List PreparedStop) (freshIds : List String) :
    List TripStop × List (String × String) :=
  match preps, freshIds with
  | [], _ => ([], [])
  | _ :: _, [] => ([], [])
  | p :: ps, fid :: fids =>
      let created : TripStop :=
        { id := fid, trip_id := tripId, city_id := p.city_id, city_name := p.city_name,
          country := p.country, start_date := p.start_date, end_date := p.end_date,
          order_index := p.order_index, transport_cost := p.transport_cost,
          accommodation_cost := p.accommodation_cost, notes := p.notes,
          activities := p.activities }
      let rest := insertImportedStops tripId ps fids
      (created :: rest.1,
       if p.original_stop_id = "" then rest.2 else (p.original_stop_id, fid) :: rest.2)

/-- Activity insert of `handleImport` (lines 182-195): keep the
activities whose original stop id is truthy and present in `stopIdMap`,
rewrite `trip_stop_id` through the map, and bulk-insert (fresh ids
supplied by the store). -/
def insertImportedActivities (preps : List PreparedActivity)
    (stopIdMap : List (String × String)) (freshIds : List String) : List TripActivity :=
  let toInsert := preps.filter (fun a =>
    !(a.original_stop_id == "") && (stopIdMap.lookup a.original_stop_id).isSome)
  List.zipWith (fun (a : PreparedActivity) (fid : String) =>
    ({ id := fid, trip_stop_id := (stopIdMap.lookup a.original_stop_id).getD "",
       activity_id := a.activity_id, name := a.name, description := a.description,
       scheduled_date := a.scheduled_date, scheduled_time := a.scheduled_time,
       duration_hours := a.duration_hours, estimated_cost := a.estimated_cost,
       order_index := a.order_index, category := a.category,
       is_custom := a.is_custom } : TripActivity))
    toInsert freshIds

/-- The two-phase insert of `handleImport` (TripView, lines 146-195) on
a validated typed document: prepare, insert the trip, insert the stops
building the old-to-new id map, then insert the remapped activities. -/
def handleImport (importedData : ExportedTrip) (userId : String)
    (newTripId freshShareCode now : String) (stopIds actIds : List String) :
    Trip × List TripStop × List TripActivity :=
  let prepared := prepareImportedTripForInsert importedData userId
  let createdTrip := insertImportedTrip prepared.1 newTripId freshShareCode now
  let created := insertImportedStops createdTrip.id prepared.2.1 stopIds
  let createdActivities := insertImportedActivities prepared.2.2 created.2 actIds
  (createdTrip, created.1, createdActivities)

/-! ## Concrete test fixtures

Inputs used to evaluate the definitions at the spec's worked examples
(epoch-day 19723 is 2024-01-01, 19724 is 2024-01-02, 19727 is
2024-01-05). -/

/-- A plain activity fixture attached to a given stop. -/
def mkActivity (i : ℕ) (stopId : String) : TripActivity :=
  { id := "a" ++ toString i, trip_stop_id := stopId, activity_id := none,
    name := "Act" ++ toString i, description := none, scheduled_date := none,
    scheduled_time := none, duration_hours := 1, estimated_cost := 0, order_index := 0,
    category := none, is_custom := false }

/-- A plain stop fixture. -/
def mkStop (id tripId cityName : String) (orderIndex : Int) (acts : List TripActivity) : TripStop :=
  { id := id, trip_id := tripId, city_id := none, city_name := cityName, country := some "India",
    start_date := none, end_date := none, order_index := orderIndex, transport_cost := 0,
    accommodation_cost := 0, notes := none, activities := acts }

/-- A trip fixture with the given dates. -/
def mkTrip (id : String) (startDate endDate : Option Int) : Trip :=
  { id := id, user_id := "u1", name := "Rajasthan Tour", description := none,
    start_date := startDate, end_date := endDate, cover_image := none, is_public := false,
    share_code := some "sc123abc", total_budget := 10000, created_at := "2024-01-01",
    updated_at := "2024-01-01" }

/-- The spec's breakdown example activity: cost 500, category "Sightseeing". -/
def sightseeingActivity : TripActivity :=
  { mkActivity 1 "s1" with estimated_cost := 500, category := some "Sightseeing" }

/-- The spec's breakdown example stop: transport 1000, accommodation
2000, one sightseeing activity, dates spanning 2 days. -/
def breakdownStop : TripStop :=
  { mkStop "s1" "t1" "Jaipur" 0 [sightseeingActivity] with
      start_date := some 19723, end_date := some 19724,
      transport_cost := 1000, accommodation_cost := 2000 }

/-- Two-day trip (2024-01-01 to 2024-01-02) for the average-daily-cost
counterexample. -/
def twoDayTrip : Trip := mkTrip "t1" (some 19723) (some 19724)

/-- The same trip with no dates. -/
def noDatesTrip : Trip := mkTrip "t1" none none

/-- Three-day trip (2024-01-01 to 2024-01-03) for the pace examples. -/
def threeDayTrip : Trip := mkTrip "t1" (some 19723) (some 19725)

/-- Two stops carrying 5 + 4 = 9 activities for the pace example. -/
def paceStops9 : List TripStop :=
  [mkStop "s1" "t1" "Jaipur" 0 ((List.range 5).map (fun i => mkActivity i "s1")),
   mkStop "s2" "t1" "Udaipur" 1 ((List.range 4).map (fun i => mkActivity (5 + i) "s2"))]

/-- Three stops in ascending `order_index` 0, 1, 2 for the reorder example. -/
def reorderStops : List TripStop :=
  [mkStop "s1" "t1" "Jaipur" 0 [], mkStop "s2" "t1" "Udaipur" 1 [], mkStop "s3" "t1" "Jodhpur" 2 []]

/-- Activity scheduled 2024-01-05. -/
def beachDayLate : TripActivity :=
  { mkActivity 1 "s1" with name := "Beach Day", scheduled_date := some 19727 }

/-- The same activity scheduled 2024-01-01. -/
def beachDayEarly : TripActivity :=
  { mkActivity 1 "s1" with name := "Beach Day", scheduled_date := some 19723 }

/-- Stop dated 2024-01-01 to 2024-01-02 holding one activity scheduled
2024-01-05 (out of range). -/
def outOfRangeStop : TripStop :=
  { mkStop "s1" "t1" "Goa" 0 [beachDayLate] with
      start_date := some 19723, end_date := some 19724 }

/-- The identical stop with the activity scheduled 2024-01-01 (in range). -/
def inRangeStop : TripStop :=
  { mkStop "s1" "t1" "Goa" 0 [beachDayEarly] with
      start_date := some 19723, end_date := some 19724 }

/-- A trip that has no share code yet. -/
def noShareCodeTrip : Trip := { mkTrip "t1" none none with share_code := none }

/-- An import document whose `stops` field is a number, not an array. -/
def badStopsDoc : JValue :=
  JValue.obj [("version", JValue.str "1.0"),
              ("trip", JValue.obj [("name", JValue.str "Rajasthan Tour")]),
              ("stops", JValue.num 3),
              ("activities", JValue.arr [])]

/-- A store fixture holding one unrelated trip. -/
def sampleStore : Store :=
  { trips := [mkTrip "t0" none none], trip_stops := [], trip_activities := [] }

/-- Source graph for the round-trip example: a trip with 2 stops
carrying 3 and 2 activities respectively. -/
def roundTripStops : List TripStop :=
  [mkStop "s1" "t1" "Jaipur" 0 ((List.range 3).map (fun i => mkActivity i "s1")),
   mkStop "s2" "t1" "Udaipur" 1 ((List.range 2).map (fun i => mkActivity (3 + i) "s2"))]

/-- The flat activity array of the round-trip example (3 on the first
stop, 2 on the second). -/
def roundTripActivities : List TripActivity :=
  ((List.range 3).map (fun i => mkActivity i "s1")) ++
    ((List.range 2).map (fun i => mkActivity (3 + i) "s2"))

/-- A stop whose two activities both have a `null` category. -/
def nullCategoryStop : TripStop :=
  { mkStop "s1" "t1" "Jaipur" 0
      [{ mkActivity 1 "s1" with estimated_cost := 300 },
       { mkActivity 2 "s1" with estimated_cost := 200 }] with
    transport_cost := 100, accommodation_cost := 400 }

/-! ## Helper lemmas -/

theorem list_set_getElem_self {α : Type _} (l : List α) (k : ℕ) (h : k < l.length) :
    l.set k l[k] = l := by
  apply List.ext_getElem (by simp)
  intro i h1 h2
  rw [List.getElem_set]
  split
  · next heq => exact heq ▸ rfl
  · rfl

theorem foldl_activityStep (acts : List TripActivity) (acc : CostBreakdown) :
    acts.foldl activityStep acc =
      { transport := acc.transport, accommodation := acc.accommodation,
        activities := acc.activities +
          ((acts.filter (fun a => !(isFoodOrDining a.category))).map (fun a => a.estimated_cost)).sum,
        meals := acc.meals +
          ((acts.filter (fun a => isFoodOrDining a.category)).map (fun a => a.estimated_cost)).sum } := by
  induction acts generalizing acc with
  | nil => simp
  | cons a as ih =>
      rw [List.foldl_cons, ih]
      by_cases h : isFoodOrDining a.category
      · simp [activityStep, h, List.filter_cons, CostBreakdown.mk.injEq]
        ring
      · simp [activityStep, h, List.filter_cons, CostBreakdown.mk.injEq]
        ring

theorem foldl_costsStep (stops : List TripStop) (acc : CostBreakdown) :
    stops.foldl costsStep acc =
      { transport := acc.transport + sumTransport stops,
        accommodation := acc.accommodation + sumAccommodation stops,
        activities := acc.activities + sumNonFood stops,
        meals := acc.meals + sumFood stops } := by
  induction stops generalizing acc with
  | nil => simp [sumTransport, sumAccommodation, sumNonFood, sumFood]
  | cons s ss ih =>
      rw [List.foldl_cons, costsStep, foldl_activityStep, ih]
      simp [sumTransport, sumAccommodation, sumNonFood, sumFood, CostBreakdown.mk.injEq]
      refine ⟨by ring, by ring, by ring, by ring⟩

theorem calculateCosts_closed (stops : List TripStop) :
    calculateCosts stops =
      { transport := sumTransport stops, accommodation := sumAccommodation stops,
        activities := sumNonFood stops,
        meals := if sumFood stops = 0 then (stops.length : ℚ) * 1500 else sumFood stops } := by
  unfold calculateCosts
  rw [foldl_costsStep]
  simp

theorem calculateCosts_breakdownStop :
    calculateCosts [breakdownStop] = ⟨1000, 2000, 500, 1500⟩ := by
  rw [calculateCosts_closed]
  norm_num [sumTransport, sumAccommodation, sumNonFood, sumFood, breakdownStop, mkStop,
    mkActivity, sightseeingActivity,
    show isFoodOrDining (some "Sightseeing") = false from by decide]

theorem totalEstimated_breakdownStop : totalEstimated [breakdownStop] = 5000 := by
  unfold totalEstimated
  rw [calculateCosts_breakdownStop]
  norm_num

/-! ## Claim theorems -/

/-- **C5**: `calculateCosts` sums `transport_cost` and
`accommodation_cost` over all stops, routes each activity's estimated
cost to `meals` when its category label case-insensitively contains
"food" or "dining" and to `activities` otherwise, and substitutes
`stops.length * 1500` exactly when the accumulated meals figure is
zero; on the spec's example (one stop, transport 1000, accommodation
2000, one "Sightseeing" activity costing 500) the breakdown is
`{1000, 2000, 500, 1500}` and `totalEstimated` is 5000, the exact sum
of the four fields. -/
theorem calculateCosts_spec :
    (∀ stops : List TripStop,
        calculateCosts stops =
          { transport := sumTransport stops, accommodation := sumAccommodation stops,
            activities := sumNonFood stops,
            meals := if sumFood stops = 0 then (stops.length : ℚ) * 1500 else sumFood stops })
    ∧ calculateCosts [breakdownStop] = ⟨1000, 2000, 500, 1500⟩
    ∧ totalEstimated [breakdownStop] = 5000
    ∧ totalEstimated [breakdownStop] =
        (calculateCosts [breakdownStop]).transport + (calculateCosts [breakdownStop]).accommodation
          + (calculateCosts [breakdownStop]).activities + (calculateCosts [breakdownStop]).meals :=
  ⟨calculateCosts_closed, calculateCosts_breakdownStop, totalEstimated_breakdownStop, rfl⟩

/-- **C10**: an activity with a `null` category is routed to the
`activities` bucket, never to `meals` (the embedding is total, so the
pass completes on such input); consequently a trip graph all of whose
activities have a `null` category accumulates zero meals and receives
the per-stop fallback `stops.length * 1500`. -/
theorem calculateCosts_nullCategory :
    (∀ (acc : CostBreakdown) (a : TripActivity), a.category = none →
        activityStep acc a =
          { transport := acc.transport, accommodation := acc.accommodation,
            activities := acc.activities + a.estimated_cost, meals := acc.meals })
    ∧ ∀ stops : List TripStop,
        (∀ stop ∈ stops, ∀ a ∈ stop.activities, a.category = none) →
        calculateCosts stops =
          { transport := sumTransport stops, accommodation := sumAccommodation stops,
            activities := (stops.map (fun s => (s.activities.map (fun a => a.estimated_cost)).sum)).sum,
            meals := (stops.length : ℚ) * 1500 } := by
  constructor
  · intro acc a h
    simp [activityStep, isFoodOrDining, h]
  · intro stops h
    have hfood : sumFood stops = 0 := by
      unfold sumFood
      apply List.sum_eq_zero
      intro x hx
      simp only [List.mem_map] at hx
      obtain ⟨s, hs, rfl⟩ := hx
      have : s.activities.filter (fun a => isFoodOrDining a.category) = [] := by
        apply List.filter_eq_nil_iff.mpr
        intro a ha
        simp [isFoodOrDining, h s hs a ha]
      simp [this]
    have hnonfood : sumNonFood stops =
        (stops.map (fun s => (s.activities.map (fun a => a.estimated_cost)).sum)).sum := by
      unfold sumNonFood
      congr 1
      apply List.map_congr_left
      intro s hs
      have : s.activities.filter (fun a => !(isFoodOrDining a.category)) = s.activities := by
        apply List.filter_eq_self.mpr
        intro a ha
        simp [isFoodOrDining, h s hs a ha]
      rw [this]
    rw [calculateCosts_closed, hfood, hnonfood]
    simp

/-- Witness for `calculateCosts_nullCategory`: the two activities of
`nullCategoryStop` have a `null` category, and the breakdown routes
their 300 + 200 to `activities` with the 1500 meals fallback. -/
theorem calculateCosts_nullCategory_witness :
    (∀ stop ∈ [nullCategoryStop], ∀ a ∈ stop.activities, a.category = none)
    ∧ calculateCosts [nullCategoryStop] =
        { transport := sumTransport [nullCategoryStop],
          accommodation := sumAccommodation [nullCategoryStop],
          activities := ([nullCategoryStop].map
            (fun s => (s.activities.map (fun a => a.estimated_cost)).sum)).sum,
          meals := (([nullCategoryStop] : List TripStop).length : ℚ) * 1500 } :=
  ⟨by decide, calculateCosts_nullCategory.2 [nullCategoryStop] (by decide)⟩

/-- **C4 counterexample**: on a trip dated 2024-01-01 to 2024-01-02 with
one stop totalling 5000, the code's `averagePerDay` divides by
`max(1, ceil((end-start)/day)) = 1` and yields 5000/2... (see fields),
while the spec's `totalEstimated / max(1, (end-start)+1)` yields 2500;
and with both dates missing the code yields 0 where the spec's formula
yields `totalEstimated / 1 = 5000`. -/
theorem averagePerDay_counterexample :
    averagePerDay twoDayTrip [breakdownStop] = 5000 ∧
    specAverageDailyCost twoDayTrip [breakdownStop] = 2500 ∧
    averagePerDay twoDayTrip [breakdownStop] ≠ specAverageDailyCost twoDayTrip [breakdownStop] ∧
    averagePerDay noDatesTrip [breakdownStop] = 0 ∧
    specAverageDailyCost noDatesTrip [breakdownStop] = 5000 ∧
    averagePerDay noDatesTrip [breakdownStop] ≠ specAverageDailyCost noDatesTrip [breakdownStop] := by
  have h1 : averagePerDay twoDayTrip [breakdownStop] = 5000 := by
    unfold averagePerDay twoDayTrip mkTrip
    rw [totalEstimated_breakdownStop]
    norm_num
  have h2 : specAverageDailyCost twoDayTrip [breakdownStop] = 2500 := by
    unfold specAverageDailyCost specDurationDays twoDayTrip mkTrip
    rw [totalEstimated_breakdownStop]
    norm_num
  have h3 : averagePerDay noDatesTrip [breakdownStop] = 0 := by
    unfold averagePerDay noDatesTrip mkTrip
    norm_num
  have h4 : specAverageDailyCost noDatesTrip [breakdownStop] = 5000 := by
    unfold specAverageDailyCost specDurationDays noDatesTrip mkTrip
    rw [totalEstimated_breakdownStop]
    norm_num
  exact ⟨h1, h2, by rw [h1, h2]; norm_num, h3, h4, by rw [h3, h4]; norm_num⟩

/-- **C4 (amended)**: `averagePerDay` equals `totalEstimated` divided by
`max(1, end - start)` — the day difference WITHOUT the `+1` for the
inclusive endpoint — when both trip dates are present, and equals `0`
(not `totalEstimated / 1`) when either date is missing. -/
theorem averagePerDay_amended :
    (∀ (trip : Trip) (stops : List TripStop) (s e : Int),
        trip.start_date = some s → trip.end_date = some e →
        averagePerDay trip stops = totalEstimated stops / ((max 1 (e - s) : ℤ) : ℚ))
    ∧ ∀ (trip : Trip) (stops : List TripStop),
        trip.start_date = none ∨ trip.end_date = none → averagePerDay trip stops = 0 := by
  constructor
  · intro trip stops s e hs he
    unfold averagePerDay
    rw [hs, he]
    dsimp only
    have hdiv : ((e * 86400000 : ℚ) - (s * 86400000 : ℚ)) / (1000 * 60 * 60 * 24) = ((e - s : ℤ) : ℚ) := by
      push_cast
      field_simp
      ring
    rw [hdiv, Int.ceil_intCast]
  · intro trip stops h
    rcases h with h | h
    · unfold averagePerDay
      rw [h]
    · unfold averagePerDay
      rw [h]
      cases trip.start_date <;> rfl

/-- Witness for `averagePerDay_amended` at the two-day trip and the
no-dates trip. -/
theorem averagePerDay_amended_witness :
    twoDayTrip.start_date = some 19723 ∧ twoDayTrip.end_date = some 19724 ∧
    averagePerDay twoDayTrip [breakdownStop] =
      totalEstimated [breakdownStop] / ((max 1 ((19724 : ℤ) - 19723) : ℤ) : ℚ) ∧
    noDatesTrip.start_date = none ∧
    averagePerDay noDatesTrip [breakdownStop] = 0 :=
  ⟨rfl, rfl, averagePerDay_amended.1 twoDayTrip [breakdownStop] 19723 19724 rfl rfl,
   rfl, averagePerDay_amended.2 noDatesTrip [breakdownStop] (Or.inl rfl)⟩

/-- **C3**: `calculateTripPace` returns "Planning" exactly when the trip
does not have both dates or has zero stops; otherwise, writing `r` for
`totalActivities / durationDays` (with `durationDays = end - start + 1`),
it returns "Relaxed" iff `r < 2`, "Balanced" iff `2 ≤ r ≤ 4`, and
"Packed" iff `r > 4`. -/
theorem calculateTripPace_spec :
    (∀ (trip : Trip) (stops : List TripStop),
        calculateTripPace trip stops = "Planning" ↔
          trip.start_date = none ∨ trip.end_date = none ∨ stops = [])
    ∧ ∀ (trip : Trip) (stops : List TripStop) (s e : Int),
        trip.start_date = some s → trip.end_date = some e → s ≤ e → stops ≠ [] →
        ((calculateTripPace trip stops = "Relaxed" ↔
            (totalActivities stops : ℚ) / ((e - s + 1 : ℤ) : ℚ) < 2)
        ∧ (calculateTripPace trip stops = "Balanced" ↔
            2 ≤ (totalActivities stops : ℚ) / ((e - s + 1 : ℤ) : ℚ) ∧
              (totalActivities stops : ℚ) / ((e - s + 1 : ℤ) : ℚ) ≤ 4)
        ∧ (calculateTripPace trip stops = "Packed" ↔
            4 < (totalActivities stops : ℚ) / ((e - s + 1 : ℤ) : ℚ))) := by
  constructor
  · intro trip stops
    cases hs : trip.start_date with
    | none =>
        cases he : trip.end_date <;> simp [calculateTripPace, hs, he]
    | some s =>
        cases he : trip.end_date with
        | none => simp [calculateTripPace, hs, he]
        | some e =>
            unfold calculateTripPace
            rw [hs, he]
            dsimp only
            rcases stops with _ | ⟨st, rest⟩
            · simp
            · simp only [List.length_cons, Nat.succ_ne_zero, if_false, reduceCtorEq]
              split_ifs <;>
                simp [show ("Packed" : String) ≠ "Planning" from by decide,
                      show ("Relaxed" : String) ≠ "Planning" from by decide,
                      show ("Balanced" : String) ≠ "Planning" from by decide]
  · intro trip stops s e hs he hse hne
    have hlen : ¬(stops.length = 0) := by
      simpa [List.length_eq_zero] using hne
    have hdays : ¬((e - s + 1 : Int) = 0) := by omega
    unfold calculateTripPace
    rw [hs, he]
    dsimp only
    rw [if_neg hlen, if_neg hdays]
    refine ⟨?_, ?_, ?_⟩ <;> split_ifs with h1 h2 <;>
      simp_all [show ("Relaxed" : String) ≠ "Balanced" from by decide,
                show ("Relaxed" : String) ≠ "Packed" from by decide,
                show ("Balanced" : String) ≠ "Relaxed" from by decide,
                show ("Balanced" : String) ≠ "Packed" from by decide,
                show ("Packed" : String) ≠ "Relaxed" from by decide,
                show ("Packed" : String) ≠ "Balanced" from by decide]
    all_goals linarith

/-- Witness for `calculateTripPace_spec`: the three-day trip with 9
activities across 2 stops (the spec's "Balanced" example). -/
theorem calculateTripPace_spec_witness :
    threeDayTrip.start_date = some 19723 ∧ threeDayTrip.end_date = some 19725 ∧
    (19723 : Int) ≤ 19725 ∧ paceStops9 ≠ [] ∧
    ((calculateTripPace threeDayTrip paceStops9 = "Relaxed" ↔
        (totalActivities paceStops9 : ℚ) / (((19725 : ℤ) - 19723 + 1 : ℤ) : ℚ) < 2)
    ∧ (calculateTripPace threeDayTrip paceStops9 = "Balanced" ↔
        2 ≤ (totalActivities paceStops9 : ℚ) / (((19725 : ℤ) - 19723 + 1 : ℤ) : ℚ) ∧
          (totalActivities paceStops9 : ℚ) / (((19725 : ℤ) - 19723 + 1 : ℤ) : ℚ) ≤ 4)
    ∧ (calculateTripPace threeDayTrip paceStops9 = "Packed" ↔
        4 < (totalActivities paceStops9 : ℚ) / (((19725 : ℤ) - 19723 + 1 : ℤ) : ℚ))) :=
  ⟨rfl, rfl, by decide, by decide,
   calculateTripPace_spec.2 threeDayTrip paceStops9 19723 19725 rfl rfl (by decide) (by decide)⟩

theorem countP_flatMap {α β : Type _} (l : List α) (g : α → List β) (p : β → Bool) :
    (l.flatMap g).countP p = (l.map (fun x => (g x).countP p)).sum := by
  induction l with
  | nil => simp
  | cons x xs ih => simp [List.flatMap_cons, List.countP_append, ih]

theorem sum_map_single {α : Type _} [DecidableEq α] (l : List α) (a : α) (c : ℕ) (f : α → ℕ)
    (hnd : l.Nodup) (ha : a ∈ l) (hf : ∀ b ∈ l, f b = if b = a then c else 0) :
    (l.map f).sum = c := by
  induction l with
  | nil => cases ha
  | cons x xs ih =>
      have hnd' := List.nodup_cons.mp hnd
      rcases List.mem_cons.mp ha with rfl | hmem
      · have htail : (xs.map f).sum = 0 := by
          apply List.sum_eq_zero
          intro y hy
          obtain ⟨b, hb, rfl⟩ := List.mem_map.mp hy
          have hb_ne : b ≠ a := fun h => hnd'.1 (h ▸ hb)
          rw [hf b (List.mem_cons_of_mem _ hb), if_neg hb_ne]
        have hfa : f a = c := by rw [hf a (List.mem_cons_self _ _), if_pos rfl]
        simp [htail, hfa]
      · have hx_ne : x ≠ a := fun h => hnd'.1 (h ▸ hmem)
        have hfx : f x = 0 := by rw [hf x (List.mem_cons_self _ _), if_neg hx_ne]
        simp only [List.map_cons, List.sum_cons, hfx, Nat.zero_add]
        exact ih hnd'.2 hmem (fun b hb => hf b (List.mem_cons_of_mem _ hb))

theorem dateConflictMessage_name_inj (a b : TripActivity) (stop : TripStop)
    (h : dateConflictMessage a stop = dateConflictMessage b stop) : a.name = b.name := by
  unfold dateConflictMessage at h
  have hdata := congrArg String.data h
  simp only [String.data_append, List.append_assoc] at hdata
  have h1 := List.append_cancel_left hdata
  rw [← List.append_assoc, ← List.append_assoc, ← List.append_assoc,
      ← List.append_assoc] at h1
  have h2 := List.append_cancel_right (List.append_cancel_right h1)
  exact String.ext (List.append_cancel_right h2)

/-- **C7**: for a stop with both dates set, an activity with a scheduled
date outside the inclusive `[start_date, end_date]` interval yields
exactly one `"date"`-type severity-`"error"` alert naming that activity
and stop, and an activity scheduled inside the interval (endpoints
included) yields zero such alerts; when every scheduled activity is in
range the pass yields no alert at all. -/
theorem dateConflictAlerts_spec (stop : TripStop) (ss se : Int) (a : TripActivity) (d : Int)
    (hs : stop.start_date = some ss) (he : stop.end_date = some se)
    (ha : a ∈ stop.activities) (hd : a.scheduled_date = some d)
    (hnames : (stop.activities.map (fun x => x.name)).Nodup) :
    (dateConflictAlerts [stop]).countP
        (fun al => al == ({ type := "date", message := dateConflictMessage a stop,
                            severity := "error" } : Alert)) =
      (if ss ≤ d ∧ d ≤ se then 0 else 1)
    ∧ ((∀ b ∈ stop.activities, ∀ db : Int, b.scheduled_date = some db → ss ≤ db ∧ db ≤ se) →
        dateConflictAlerts [stop] = []) := by
  constructor
  · unfold dateConflictAlerts
    simp only [List.flatMap_cons, List.flatMap_nil, List.append_nil]
    rw [hs, he]
    dsimp only
    rw [countP_flatMap]
    apply sum_map_single _ a _ _ (List.Nodup.of_map _ hnames) ha
    intro b hb
    by_cases hba : b = a
    · subst hba
      rw [hd]
      dsimp only
      by_cases hin : ss ≤ d ∧ d ≤ se
      · rw [if_pos hin, if_pos hin]
        simp
      · rw [if_neg hin, if_neg hin]
        simp
    · rw [if_neg hba]
      cases hbd : b.scheduled_date with
      | none => simp
      | some db =>
          dsimp only
          by_cases hin : ss ≤ db ∧ db ≤ se
          · rw [if_pos hin]
            simp
          · rw [if_neg hin]
            simp only [List.countP_cons, List.countP_nil, Nat.zero_add]
            have hne : Alert.mk "date" (dateConflictMessage b stop) "error" ≠
                Alert.mk "date" (dateConflictMessage a stop) "error" := by
              intro h
              have hmsg : dateConflictMessage b stop = dateConflictMessage a stop :=
                congrArg Alert.message h
              exact hba (List.inj_on_of_nodup_map hnames hb ha
                (dateConflictMessage_name_inj b a stop hmsg))
            simp [hne]
  · intro hall
    unfold dateConflictAlerts
    simp only [List.flatMap_cons, List.flatMap_nil, List.append_nil]
    rw [hs, he]
    dsimp only
    apply List.flatMap_eq_nil_iff.mpr
    intro b hb
    cases hbd : b.scheduled_date with
    | none => rfl
    | some db =>
        dsimp only
        rw [if_pos (hall b hb db hbd)]

/-- Witness for `dateConflictAlerts_spec`: the stop dated 2024-01-01 to
2024-01-02 with "Beach Day" scheduled 2024-01-05 yields exactly one
date alert, and the in-range variant yields none. -/
theorem dateConflictAlerts_spec_witness :
    outOfRangeStop.start_date = some 19723 ∧ outOfRangeStop.end_date = some 19724 ∧
    beachDayLate ∈ outOfRangeStop.activities ∧ beachDayLate.scheduled_date = some 19727 ∧
    (dateConflictAlerts [outOfRangeStop]).countP
        (fun al => al ==
          Alert.mk "date" (dateConflictMessage beachDayLate outOfRangeStop) "error") =
      (if (19723 : Int) ≤ 19727 ∧ (19727 : Int) ≤ 19724 then 0 else 1) ∧
    dateConflictAlerts [inRangeStop] = [] :=
  ⟨rfl, rfl, List.Mem.head _, rfl,
   (dateConflictAlerts_spec outOfRangeStop 19723 19724 beachDayLate 19727 rfl rfl
      (List.Mem.head _) rfl (by decide)).1,
   (dateConflictAlerts_spec inRangeStop 19723 19724 beachDayEarly 19723 rfl rfl
      (List.Mem.head _) rfl (by decide)).2
     (fun b hb db hdb => by
        have hb' : b = beachDayEarly := List.mem_singleton.mp hb
        subst hb'
        simp only [beachDayEarly, mkActivity] at hdb
        cases hdb
        omega)⟩

/-- **C6 counterexample**: `handleAddSpot` inserts its stop with
`order_index: 0` unconditionally, so adding a spot for a new city to a
trip that already has a stop at `order_index 0` produces two stops with
the same `order_index` — the stop-creating operations do NOT all
preserve distinctness of `order_index`. -/
theorem handleAddSpot_counterexample :
    ((handleAddSpot (mkTrip "t1" none none) [mkStop "s1" "t1" "Jaipur" 0 []] "Udaipur" "India"
        "s9").map (fun s => s.order_index)) = [0, 0]
    ∧ ¬ ((handleAddSpot (mkTrip "t1" none none) [mkStop "s1" "t1" "Jaipur" 0 []] "Udaipur" "India"
        "s9").map (fun s => s.order_index)).Nodup := by
  constructor
  · decide
  · decide

/-- **C6 (amended)**: the trip builder's `handleAddStop` assigns
`order_index = stops.length`, which preserves pairwise-distinct
`order_index` values whenever every existing index is below the stop
count (in particular when they are exactly 0..n-1); the destination
screen's `handleAddSpot`, by contrast, assigns `order_index 0`
unconditionally and violates distinctness as soon as index 0 is taken
(see the counterexample). -/
theorem handleAddStop_preserves_distinct (trip : Trip) (stops : List TripStop)
    (form : NewStopForm) (freshId : String)
    (hbound : ∀ s ∈ stops, s.order_index < (stops.length : Int))
    (hnd : (stops.map (fun s => s.order_index)).Nodup) :
    ((handleAddStop trip stops form freshId).map (fun s => s.order_index)).Nodup := by
  unfold handleAddStop
  split_ifs with h
  · exact hnd
  · rw [List.map_append]
    rw [List.nodup_append]
    refine ⟨hnd, by simp, ?_⟩
    intro x hx hy
    simp only [List.map_cons, List.map_nil, List.mem_singleton] at hy
    subst hy
    obtain ⟨s, hs, hx'⟩ := List.mem_map.mp hx
    have := hbound s hs
    omega

/-- Witness for `handleAddStop_preserves_distinct`: adding a fourth stop
to the three stops indexed 0, 1, 2. -/
theorem handleAddStop_preserves_distinct_witness :
    (∀ s ∈ reorderStops, s.order_index < ((reorderStops : List TripStop).length : Int)) ∧
    ((reorderStops.map (fun s => s.order_index)).Nodup) ∧
    ((handleAddStop (mkTrip "t1" none none) reorderStops
        { city_name := "Pushkar", country := "India", start_date := none, end_date := none }
        "s9").map (fun s => s.order_index)).Nodup :=
  ⟨by decide, by decide,
   handleAddStop_preserves_distinct (mkTrip "t1" none none) reorderStops
     { city_name := "Pushkar", country := "India", start_date := none, end_date := none }
     "s9" (by decide) (by decide)⟩

/-- **C8 (code bug)**: when the trip has no share code, `handleShare`
persists one freshly drawn code (`rnd1`) but builds the copied URL from
a second independent draw (`rnd2`), because line 88 re-reads the stale
local `trip.share_code`; the copied link therefore carries a code that
was never stored and `loadSharedTrip` cannot resolve it.  A trip that
already has a share code but `is_public = false` (the state every
imported trip is created in) gets a URL with the stored code, yet
resolution still fails because `loadSharedTrip` also requires
`is_public = true` and `handleShare` skips the update for such trips. -/
theorem handleShare_code_mismatch :
    (handleShare noShareCodeTrip "abc12345" "xyz67890").1.share_code = some "abc12345" ∧
    (handleShare noShareCodeTrip "abc12345" "xyz67890").2 = "xyz67890" ∧
    (handleShare noShareCodeTrip "abc12345" "xyz67890").2 ≠ "abc12345" ∧
    loadSharedTrip [(handleShare noShareCodeTrip "abc12345" "xyz67890").1]
        (handleShare noShareCodeTrip "abc12345" "xyz67890").2 = none ∧
    (handleShare (mkTrip "t1" none none) "abc12345" "xyz67890").2 = "sc123abc" ∧
    (handleShare (mkTrip "t1" none none) "abc12345" "xyz67890").1 = mkTrip "t1" none none ∧
    loadSharedTrip [(handleShare (mkTrip "t1" none none) "abc12345" "xyz67890").1]
        (handleShare (mkTrip "t1" none none) "abc12345" "xyz67890").2 = none := by
  refine ⟨rfl, rfl, by decide, rfl, rfl, rfl, rfl⟩

/-- **C9**: `validateImportedData` accepts a document exactly when it is
an object whose `trip` field is an object with a non-empty string
`name` and whose `stops` and `activities` fields are arrays (possibly
empty); and for any document whose `stops` field is not an array the
validation fails, `importTrip` yields `null`, and the import handler
returns before attempting any insert, leaving the store unchanged
(whatever insert phase `k` would have run). -/
theorem validateImportedData_spec :
    (∀ d : JValue, validateImportedData d = true ↔
      ∃ fs tfs nm st ac,
        d = JValue.obj fs ∧ getField d "trip" = JValue.obj tfs ∧
        getField (JValue.obj tfs) "name" = JValue.str nm ∧ nm ≠ "" ∧
        getField d "stops" = JValue.arr st ∧ getField d "activities" = JValue.arr ac)
    ∧ ∀ (d : JValue) (store : Store) (k : JValue → Store → Store),
        isArray (getField d "stops") = false →
        validateImportedData d = false ∧ importTrip d = none ∧
          handleImportGate d store k = store := by
  constructor
  · intro d
    constructor
    · intro h
      unfold validateImportedData at h
      split_ifs at h with h1 h2 h3 h4 h5
      simp only [Bool.or_eq_true, Bool.not_eq_true', not_or] at h1 h2 h5
      obtain ⟨h1t, h1o⟩ := h1
      obtain ⟨h2t, h2o⟩ := h2
      obtain ⟨h5t, h5s⟩ := h5
      simp only [Bool.not_eq_false] at h3 h4
      cases d with
      | null => simp [jsTruthy] at h1t
      | bool b => simp [typeofIsObject] at h1o
      | num q => simp [typeofIsObject] at h1o
      | str s => simp [typeofIsObject] at h1o
      | arr xs => simp [getField, jsTruthy] at h2t
      | obj fs =>
          refine ⟨fs, ?_⟩
          cases ht : getField (JValue.obj fs) "trip" with
          | null => rw [ht] at h2t; simp [jsTruthy] at h2t
          | bool b => rw [ht] at h2o; simp [typeofIsObject] at h2o
          | num q => rw [ht] at h2o; simp [typeofIsObject] at h2o
          | str s => rw [ht] at h2o; simp [typeofIsObject] at h2o
          | arr xs => rw [ht] at h5s; simp [getField, isString] at h5s
          | obj tfs =>
              rw [ht] at h5t h5s
              cases hn : getField (JValue.obj tfs) "name" with
              | str nm =>
                  rw [hn] at h5t
                  cases hst : getField (JValue.obj fs) "stops" with
                  | arr st =>
                      cases hac : getField (JValue.obj fs) "activities" with
                      | arr ac =>
                          refine ⟨tfs, nm, st, ac, rfl, rfl, hn, ?_, rfl, rfl⟩
                          simpa [jsTruthy] using h5t
                      | null => rw [hac] at h4; simp [isArray] at h4
                      | bool b => rw [hac] at h4; simp [isArray] at h4
                      | num q => rw [hac] at h4; simp [isArray] at h4
                      | str s => rw [hac] at h4; simp [isArray] at h4
                      | obj o => rw [hac] at h4; simp [isArray] at h4
                  | null => rw [hst] at h3; simp [isArray] at h3
                  | bool b => rw [hst] at h3; simp [isArray] at h3
                  | num q => rw [hst] at h3; simp [isArray] at h3
                  | str s => rw [hst] at h3; simp [isArray] at h3
                  | obj o => rw [hst] at h3; simp [isArray] at h3
              | null => rw [hn] at h5s; simp [isString] at h5s
              | bool b => rw [hn] at h5s; simp [isString] at h5s
              | num q => rw [hn] at h5s; simp [isString] at h5s
              | arr xs => rw [hn] at h5s; simp [isString] at h5s
              | obj o => rw [hn] at h5s; simp [isString] at h5s
    · rintro ⟨fs, tfs, nm, st, ac, rfl, ht, hn, hnm, hst, hac⟩
      unfold validateImportedData
      rw [ht, hn, hst, hac]
      simp [jsTruthy, typeofIsObject, isArray, isString, hnm]
  · intro d store k h
    have hval : validateImportedData d = false := by
      unfold validateImportedData
      rw [h]
      simp
    refine ⟨hval, ?_, ?_⟩
    · unfold importTrip
      rw [hval]
      rfl
    · unfold handleImportGate importTrip
      rw [hval]
      rfl

/-- Witness for `validateImportedData_spec`: the document whose `stops`
field is the number 3 is rejected and the store survives untouched,
with an insert phase that would have emptied it. -/
theorem validateImportedData_spec_witness :
    isArray (getField badStopsDoc "stops") = false ∧
    (validateImportedData badStopsDoc = false ∧ importTrip badStopsDoc = none ∧
      handleImportGate badStopsDoc sampleStore (fun _ _ => ⟨[], [], []⟩) = sampleStore) :=
  ⟨rfl, validateImportedData_spec.2 badStopsDoc sampleStore (fun _ _ => ⟨[], [], []⟩) rfl⟩

theorem list_set_get_self {α : Type _} (l : List α) (k : ℕ) (h : k < l.length) :
    l.set k (l.get ⟨k, h⟩) = l :=
  list_set_getElem_self l k h

theorem findIdx?_eq_some_from {α : Type _} (p : α → Bool) (l : List α) (j m : ℕ)
    (hm : m < l.length) (hpm : p (l.get ⟨m, hm⟩) = true)
    (hlt : ∀ i, (hi : i < m) → p (l.get ⟨i, Nat.lt_trans hi hm⟩) = false) :
    List.findIdx? p l j = some (j + m) := by
  induction l generalizing j m with
  | nil => cases hm
  | cons x xs ih =>
      cases m with
      | zero =>
          have hx : p x = true := hpm
          rw [List.findIdx?_cons, if_pos hx]
          simp
      | succ m' =>
          have hx : p x = false := hlt 0 (Nat.succ_pos _)
          rw [List.findIdx?_cons, if_neg (by simp [hx])]
          have hm' : m' < xs.length := Nat.lt_of_succ_lt_succ hm
          have hrec := ih (j + 1) m' hm' hpm (fun i hi => hlt (i + 1) (Nat.succ_lt_succ hi))
          rw [hrec]
          congr 1
          omega

/-- **C2**: on a stop list sorted ascending by `order_index` whose
values are a permutation of 0..n-1, requesting an adjacent swap ("up"
at position k > 0) exchanges exactly the `order_index` values of the
two stops involved, modifies no other stop, and a subsequent "down"
move on the stop now at position k-1 restores the original order. -/
theorem handleReorderStop_swap (stops : List TripStop) (k : ℕ)
    (hnd : (stops.map (fun s => s.id)).Nodup)
    (_hsorted : stops.Pairwise (fun x y => x.order_index < y.order_index))
    (_hperm : (stops.map (fun s => s.order_index)).Perm
      ((List.range stops.length).map (fun i => (i : Int))))
    (hk : k < stops.length) (hk0 : 0 < k) :
    handleReorderStop stops (stops.getD k default).id MoveDir.up =
      (stops.set k { stops.getD (k - 1) default with
          order_index := (stops.getD k default).order_index }).set (k - 1)
        { stops.getD k default with order_index := (stops.getD (k - 1) default).order_index }
    ∧ (∀ j : ℕ, j ≠ k → j ≠ k - 1 →
        (handleReorderStop stops (stops.getD k default).id MoveDir.up).getD j default =
          stops.getD j default)
    ∧ handleReorderStop (handleReorderStop stops (stops.getD k default).id MoveDir.up)
        (((handleReorderStop stops (stops.getD k default).id MoveDir.up).getD (k - 1) default).id)
        MoveDir.down = stops := by
  have hk1 : k - 1 < stops.length := by omega
  have hgetk : stops.getD k default = stops.get ⟨k, hk⟩ := List.getD_eq_getElem stops default hk
  have hgetk1 : stops.getD (k - 1) default = stops.get ⟨k - 1, hk1⟩ :=
    List.getD_eq_getElem stops default hk1
  have hid_ne : ∀ (i j : ℕ) (hi : i < stops.length) (hj : j < stops.length), i ≠ j →
      (stops.get ⟨i, hi⟩).id ≠ (stops.get ⟨j, hj⟩).id := by
    intro i j hi hj hij heq
    apply hij
    have hi' : i < (stops.map (fun s => s.id)).length := by simpa using hi
    have hj' : j < (stops.map (fun s => s.id)).length := by simpa using hj
    have : (stops.map (fun s => s.id))[i] = (stops.map (fun s => s.id))[j] := by
      simpa [List.getElem_map] using heq
    exact (List.Nodup.getElem_inj_iff hnd).mp this
  -- abbreviations for the two updated records
  set S := stops.get ⟨k, hk⟩ with hS
  set T := stops.get ⟨k - 1, hk1⟩ with hT
  set B := { T with order_index := S.order_index } with hB
  set A := { S with order_index := T.order_index } with hA
  -- the first (up) move computes to the double set
  have hfind : stops.findIdx? (fun s => s.id == S.id) = some k := by
    have h0 := findIdx?_eq_some_from (fun s => s.id == S.id) stops 0 k hk
      (by rw [← hS]; simp) (fun i hi => by
        simp only [beq_eq_false_iff_ne, ne_eq]
        exact hid_ne i k (Nat.lt_trans hi hk) hk (Nat.ne_of_lt hi))
    simpa using h0
  have hbound1 : ¬((decide ((k : Int) - 1 < 0) || decide ((stops.length : Int) ≤ (k : Int) - 1)) = true) := by
    simp only [Bool.or_eq_true, decide_eq_true_eq]
    omega
  have htn1 : ((k : Int) - 1).toNat = k - 1 := by omega
  have e1 : handleReorderStop stops S.id MoveDir.up = (stops.set k B).set (k - 1) A := by
    unfold handleReorderStop
    rw [hfind]
    dsimp only
    rw [if_pos rfl, if_neg hbound1, htn1]
    rw [hgetk, hgetk1]
  have hlen1 : ((stops.set k B).set (k - 1) A).length = stops.length := by
    simp
  have hafter_get : ∀ (i : ℕ) (hi2 : i < ((stops.set k B).set (k - 1) A).length),
      i ≠ k → i ≠ k - 1 →
      ((stops.set k B).set (k - 1) A).get ⟨i, hi2⟩ = stops.get ⟨i, by simpa using hi2⟩ := by
    intro i hi2 hik hik1
    rw [List.get_eq_getElem, List.get_eq_getElem]
    rw [List.getElem_set_ne (Ne.symm hik1), List.getElem_set_ne (Ne.symm hik)]
  refine ⟨by rw [hgetk, hgetk1, e1], ?_, ?_⟩
  · -- no other stop changes
    intro j hjk hjk1
    rw [hgetk, e1]
    by_cases hjl : j < stops.length
    · have hjl2 : j < ((stops.set k B).set (k - 1) A).length := by
        rw [hlen1]
        exact hjl
      rw [List.getD_eq_getElem _ default hjl2, List.getD_eq_getElem stops default hjl]
      rw [List.getElem_set_ne (Ne.symm hjk1), List.getElem_set_ne (Ne.symm hjk)]
    · rw [List.getD_eq_default _ default (by rw [hlen1]; omega),
          List.getD_eq_default stops default (by omega)]
  · -- the inverse (down) move restores the original list
    rw [hgetk, e1]
    have hgetA : ((stops.set k B).set (k - 1) A).getD (k - 1) default = A := by
      rw [List.getD_eq_getElem _ default (by omega : k - 1 < ((stops.set k B).set (k - 1) A).length)]
      rw [List.getElem_set]
      simp
    rw [hgetA]
    have hfind2 : ((stops.set k B).set (k - 1) A).findIdx? (fun s => s.id == A.id) =
        some (k - 1) := by
      have hk1' : k - 1 < ((stops.set k B).set (k - 1) A).length := by omega
      have h0 := findIdx?_eq_some_from (fun s => s.id == A.id)
        ((stops.set k B).set (k - 1) A) 0 (k - 1) hk1'
        (by
          have : ((stops.set k B).set (k - 1) A).get ⟨k - 1, hk1'⟩ = A := by
            rw [List.get_eq_getElem, List.getElem_set]
            simp
          rw [this]
          simp)
        (fun i hi => by
          have hii : i < stops.length := by omega
          rw [hafter_get i (Nat.lt_trans hi hk1') (by omega) (by omega)]
          simp only [beq_eq_false_iff_ne, ne_eq]
          exact hid_ne i k hii hk (by omega))
      simpa using h0
    unfold handleReorderStop
    rw [hfind2]
    dsimp only
    have hdir : (if MoveDir.down = MoveDir.up then ((k - 1 : ℕ) : Int) - 1
        else ((k - 1 : ℕ) : Int) + 1) = ((k - 1 : ℕ) : Int) + 1 := if_neg (by decide)
    rw [hdir]
    rw [if_neg (by
      simp only [Bool.or_eq_true, decide_eq_true_eq, not_or, hlen1]
      constructor <;> omega)]
    have htn2 : (((k - 1 : ℕ) : Int) + 1).toNat = k := by omega
    rw [htn2]
    have hgetB : ((stops.set k B).set (k - 1) A).getD k default = B := by
      rw [List.getD_eq_getElem _ default (by omega : k < ((stops.set k B).set (k - 1) A).length)]
      rw [List.getElem_set_ne (by omega), List.getElem_set]
      simp
    rw [hgetA, hgetB]
    show (((stops.set k B).set (k - 1) A).set (k - 1)
        { B with order_index := A.order_index }).set k { A with order_index := B.order_index } = stops
    have hBA : ({ B with order_index := A.order_index } : TripStop) = T := by
      rw [hB, hA, hT]
    have hAB : ({ A with order_index := B.order_index } : TripStop) = S := by
      rw [hA, hB, hS]
    rw [hBA, hAB]
    rw [List.set_set]
    rw [List.set_comm _ _ _ (by omega : k ≠ k - 1)]
    rw [List.set_set]
    rw [hS, hT]
    rw [list_set_get_self stops (k - 1) hk1]
    rw [list_set_get_self stops k hk]

/-- Witness for `handleReorderStop_swap`: moving the middle of three
stops (indices 0, 1, 2) up and then down. -/
theorem handleReorderStop_swap_witness :
    ((reorderStops.map (fun s => s.id)).Nodup) ∧
    (reorderStops.Pairwise (fun x y => x.order_index < y.order_index)) ∧
    ((reorderStops.map (fun s => s.order_index)).Perm
      ((List.range reorderStops.length).map (fun i => (i : Int)))) ∧
    (1 : ℕ) < reorderStops.length ∧ (0 : ℕ) < 1 ∧
    (handleReorderStop reorderStops (reorderStops.getD 1 default).id MoveDir.up =
      (reorderStops.set 1 { reorderStops.getD 0 default with
          order_index := (reorderStops.getD 1 default).order_index }).set 0
        { reorderStops.getD 1 default with
          order_index := (reorderStops.getD 0 default).order_index }
    ∧ (∀ j : ℕ, j ≠ 1 → j ≠ 0 →
        (handleReorderStop reorderStops (reorderStops.getD 1 default).id MoveDir.up).getD j
            default = reorderStops.getD j default)
    ∧ handleReorderStop (handleReorderStop reorderStops (reorderStops.getD 1 default).id
          MoveDir.up)
        (((handleReorderStop reorderStops (reorderStops.getD 1 default).id MoveDir.up).getD 0
            default).id) MoveDir.down = reorderStops) :=
  ⟨by decide, by decide, by decide, by decide, by decide,
   handleReorderStop_swap reorderStops 1 (by decide) (by decide) (by decide) (by decide)
     (by decide)⟩

theorem jsOrInt_zero (x : Int) : jsOrInt x 0 = x := by
  unfold jsOrInt
  split
  · omega
  · rfl

theorem insertImportedStops_eq (tripId : String) (preps : List PreparedStop)
    (fids : List String) (hlen : fids.length = preps.length)
    (hne : ∀ p ∈ preps, p.original_stop_id ≠ "") :
    insertImportedStops tripId preps fids =
      (List.zipWith (fun (p : PreparedStop) (fid : String) =>
        ({ id := fid, trip_id := tripId, city_id := p.city_id, city_name := p.city_name,
           country := p.country, start_date := p.start_date, end_date := p.end_date,
           order_index := p.order_index, transport_cost := p.transport_cost,
           accommodation_cost := p.accommodation_cost, notes := p.notes,
           activities := p.activities } : TripStop)) preps fids,
       (preps.map (fun p => p.original_stop_id)).zip fids) := by
  induction preps generalizing fids with
  | nil => simp [insertImportedStops]
  | cons p ps ih =>
      cases fids with
      | nil => simp at hlen
      | cons fid fids' =>
          have hlen' : fids'.length = ps.length := by simpa using hlen
          have hne' : ∀ q ∈ ps, q.original_stop_id ≠ "" :=
            fun q hq => hne q (List.mem_cons_of_mem _ hq)
          unfold insertImportedStops
          rw [ih fids' hlen' hne']
          simp [List.zip_cons_cons, if_neg (hne p (List.mem_cons_self _ _))]

theorem lookup_zip_eq (ks vs : List String) (i : ℕ) (hi : i < ks.length)
    (hlen : ks.length = vs.length) (hnd : ks.Nodup) :
    (ks.zip vs).lookup (ks.get ⟨i, hi⟩) = some (vs.get ⟨i, by omega⟩) := by
  induction ks generalizing vs i with
  | nil => cases hi
  | cons k ks' ih =>
      cases vs with
      | nil => simp at hlen
      | cons v vs' =>
          have hnd' := List.nodup_cons.mp hnd
          cases i with
          | zero => simp [List.zip_cons_cons, List.lookup]
          | succ i' =>
              have hi' : i' < ks'.length := Nat.lt_of_succ_lt_succ hi
              have hlen' : ks'.length = vs'.length := by simpa using hlen
              have hne2 : (ks'.get ⟨i', hi'⟩ == k) = false := by
                simp only [beq_eq_false_iff_ne, ne_eq]
                intro h
                exact hnd'.1 (h ▸ List.get_mem ks' i' hi')
              rw [List.zip_cons_cons]
              show List.lookup (ks'.get ⟨i', hi'⟩) ((k, v) :: ks'.zip vs') =
                some (vs'.get ⟨i', by omega⟩)
              rw [List.lookup]
              rw [hne2]
              exact ih vs' i' hi' hlen' hnd'.2

theorem countP_zipWith_left {α β γ : Type _} (f : α → β → γ) (p : γ → Bool) (q : α → Bool)
    (l1 : List α) (l2 : List β) (hlen : l1.length = l2.length)
    (h : ∀ a ∈ l1, ∀ b, p (f a b) = q a) :
    (List.zipWith f l1 l2).countP p = l1.countP q := by
  induction l1 generalizing l2 with
  | nil => simp
  | cons a as ih =>
      cases l2 with
      | nil => simp at hlen
      | cons b bs =>
          have hlen' : as.length = bs.length := by simpa using hlen
          rw [List.zipWith_cons_cons, List.countP_cons, List.countP_cons]
          rw [ih bs hlen' (fun x hx => h x (List.mem_cons_of_mem _ hx))]
          rw [h a (List.mem_cons_self _ _) b]

theorem handleImport_components (trip : Trip) (stops : List TripStop)
    (activities : List TripActivity) (exportedAt userId newTripId freshShareCode now : String)
    (stopIds actIds : List String)
    (hids : (stops.map (fun s => s.id)).Nodup)
    (hne : ∀ s ∈ stops, s.id ≠ "")
    (hslen : stopIds.length = stops.length)
    (href : ∀ a ∈ activities, a.trip_stop_id ∈ stops.map (fun s => s.id)) :
    handleImport (exportTrip trip stops activities exportedAt) userId newTripId freshShareCode
        now stopIds actIds =
      ({ id := newTripId, user_id := userId, name := trip.name ++ " (Imported)",
         description := trip.description, start_date := trip.start_date,
         end_date := trip.end_date, cover_image := trip.cover_image, is_public := false,
         share_code := some freshShareCode, total_budget := trip.total_budget,
         created_at := now, updated_at := now },
       List.zipWith (fun (s : TripStop) (fid : String) =>
         ({ id := fid, trip_id := newTripId, city_id := s.city_id, city_name := s.city_name,
            country := s.country, start_date := s.start_date, end_date := s.end_date,
            order_index := jsOrInt s.order_index 0, transport_cost := s.transport_cost,
            accommodation_cost := s.accommodation_cost, notes := s.notes,
            activities := s.activities } : TripStop)) stops stopIds,
       List.zipWith (fun (a : TripActivity) (fid : String) =>
         ({ id := fid,
            trip_stop_id :=
              (((stops.map (fun s => s.id)).zip stopIds).lookup a.trip_stop_id).getD "",
            activity_id := a.activity_id, name := a.name, description := a.description,
            scheduled_date := a.scheduled_date, scheduled_time := a.scheduled_time,
            duration_hours := a.duration_hours, estimated_cost := a.estimated_cost,
            order_index := jsOrInt a.order_index 0, category := a.category,
            is_custom := a.is_custom } : TripActivity)) activities actIds) := by
  have hlen2 : stopIds.length =
      (stops.map (fun stop =>
        ({ city_id := stop.city_id, city_name := stop.city_name, country := stop.country,
           start_date := stop.start_date, end_date := stop.end_date,
           order_index := jsOrInt stop.order_index 0, transport_cost := stop.transport_cost,
           accommodation_cost := stop.accommodation_cost, notes := stop.notes,
           activities := stop.activities, original_stop_id := stop.id } : PreparedStop))).length := by
    simpa using hslen
  have hne2 : ∀ p ∈ stops.map (fun stop =>
      ({ city_id := stop.city_id, city_name := stop.city_name, country := stop.country,
         start_date := stop.start_date, end_date := stop.end_date,
         order_index := jsOrInt stop.order_index 0, transport_cost := stop.transport_cost,
         accommodation_cost := stop.accommodation_cost, notes := stop.notes,
         activities := stop.activities, original_stop_id := stop.id } : PreparedStop)),
      p.original_stop_id ≠ "" := by
    intro p hp
    obtain ⟨s, hs, rfl⟩ := List.mem_map.mp hp
    exact hne s hs
  unfold handleImport prepareImportedTripForInsert insertImportedTrip insertImportedActivities
  dsimp only [exportTrip]
  rw [insertImportedStops_eq _ _ _ hlen2 hne2]
  dsimp only
  simp only [Prod.mk.injEq]
  refine ⟨trivial, ?_, ?_⟩
  · rw [List.zipWith_map_left]
  · have hcomp : (stops.map (fun stop =>
        ({ city_id := stop.city_id, city_name := stop.city_name, country := stop.country,
           start_date := stop.start_date, end_date := stop.end_date,
           order_index := jsOrInt stop.order_index 0, transport_cost := stop.transport_cost,
           accommodation_cost := stop.accommodation_cost, notes := stop.notes,
           activities := stop.activities, original_stop_id := stop.id } : PreparedStop))).map
          (fun p => p.original_stop_id) = stops.map (fun s => s.id) := by
      rw [List.map_map]
      rfl
    rw [hcomp]
    have hfull : (activities.map (fun activity =>
        ({ activity_id := activity.activity_id, name := activity.name,
           description := activity.description, scheduled_date := activity.scheduled_date,
           scheduled_time := activity.scheduled_time, duration_hours := activity.duration_hours,
           estimated_cost := activity.estimated_cost,
           order_index := jsOrInt activity.order_index 0, category := activity.category,
           is_custom := activity.is_custom,
           original_stop_id := activity.trip_stop_id } : PreparedActivity))).filter
          (fun a => !(a.original_stop_id == "") &&
            (((stops.map (fun s => s.id)).zip stopIds).lookup a.original_stop_id).isSome) =
        activities.map (fun activity =>
        ({ activity_id := activity.activity_id, name := activity.name,
           description := activity.description, scheduled_date := activity.scheduled_date,
           scheduled_time := activity.scheduled_time, duration_hours := activity.duration_hours,
           estimated_cost := activity.estimated_cost,
           order_index := jsOrInt activity.order_index 0, category := activity.category,
           is_custom := activity.is_custom,
           original_stop_id := activity.trip_stop_id } : PreparedActivity)) := by
      apply List.filter_eq_self.mpr
      intro pa hpa
      obtain ⟨a, ha, rfl⟩ := List.mem_map.mp hpa
      have hmem : a.trip_stop_id ∈ stops.map (fun s => s.id) := href a ha
      obtain ⟨s, hs, hsid⟩ := List.mem_map.mp hmem
      obtain ⟨m, hm⟩ := List.mem_iff_get.mp hmem
      have hlen3 : (stops.map (fun s => s.id)).length = stopIds.length := by
        simp [hslen]
      have hlook := lookup_zip_eq (stops.map (fun s => s.id)) stopIds m.1 m.2 hlen3 hids
      rw [show (stops.map (fun s => s.id)).get ⟨m.1, m.2⟩ = a.trip_stop_id from hm] at hlook
      simp only [Bool.and_eq_true, Bool.not_eq_eq_eq_not, Bool.not_true, beq_eq_false_iff_ne,
        ne_eq, Option.isSome_iff_exists]
      constructor
      · show ¬(a.trip_stop_id = "")
        rw [← hsid]
        exact hne s hs
      · exact ⟨stopIds.get ⟨m.1, by omega⟩, hlook⟩
    rw [hfull, List.zipWith_map_left]

/-- **C1**: exporting a trip graph and running it through
validate→prepareForInsert→two-phase insert reproduces an isomorphic
graph: the created trip equals the source on every field except id,
timestamps, user_id (forced to the importer), is_public (forced false),
share_code (freshly assigned) and the " (Imported)" name suffix; there
are as many new stops as source stops, each equal to its source stop
except id and trip_id; every activity survives with its fields except
id and the remapped trip_stop_id; and each corresponding new stop has
exactly as many activities attached as its source stop. -/
theorem importRoundTrip (trip : Trip) (stops : List TripStop) (activities : List TripActivity)
    (exportedAt userId newTripId freshShareCode now : String) (stopIds actIds : List String)
    (hids : (stops.map (fun s => s.id)).Nodup)
    (hne : ∀ s ∈ stops, s.id ≠ "")
    (hfresh : stopIds.Nodup)
    (hslen : stopIds.length = stops.length)
    (href : ∀ a ∈ activities, a.trip_stop_id ∈ stops.map (fun s => s.id))
    (halen : actIds.length = activities.length) :
    (handleImport (exportTrip trip stops activities exportedAt) userId newTripId freshShareCode
        now stopIds actIds).1 =
      { id := newTripId, user_id := userId, name := trip.name ++ " (Imported)",
        description := trip.description, start_date := trip.start_date,
        end_date := trip.end_date, cover_image := trip.cover_image, is_public := false,
        share_code := some freshShareCode, total_budget := trip.total_budget,
        created_at := now, updated_at := now }
    ∧ (handleImport (exportTrip trip stops activities exportedAt) userId newTripId freshShareCode
        now stopIds actIds).2.1.length = stops.length
    ∧ (∀ i : ℕ, i < stops.length →
        (handleImport (exportTrip trip stops activities exportedAt) userId newTripId
            freshShareCode now stopIds actIds).2.1.getD i default =
          { stops.getD i default with id := stopIds.getD i "", trip_id := newTripId })
    ∧ (handleImport (exportTrip trip stops activities exportedAt) userId newTripId freshShareCode
        now stopIds actIds).2.2.length = activities.length
    ∧ (∀ j : ℕ, j < activities.length →
        (handleImport (exportTrip trip stops activities exportedAt) userId newTripId
            freshShareCode now stopIds actIds).2.2.getD j default =
          { activities.getD j default with id := actIds.getD j "", trip_stop_id := (((stops.map (fun s => s.id)).zip stopIds).lookup ((activities.getD j default).trip_stop_id)).getD "" })
    ∧ ∀ i : ℕ, i < stops.length →
        ((handleImport (exportTrip trip stops activities exportedAt) userId newTripId
            freshShareCode now stopIds actIds).2.2.filter (fun a =>
              a.trip_stop_id == ((handleImport (exportTrip trip stops activities exportedAt)
                userId newTripId freshShareCode now stopIds actIds).2.1.getD i default).id)).length =
          (activities.filter (fun a => a.trip_stop_id == (stops.getD i default).id)).length := by
  rw [handleImport_components trip stops activities exportedAt userId newTripId freshShareCode
    now stopIds actIds hids hne hslen href]
  dsimp only
  have hzslen : (List.zipWith (fun (s : TripStop) (fid : String) =>
      ({ id := fid, trip_id := newTripId, city_id := s.city_id, city_name := s.city_name,
         country := s.country, start_date := s.start_date, end_date := s.end_date,
         order_index := jsOrInt s.order_index 0, transport_cost := s.transport_cost,
         accommodation_cost := s.accommodation_cost, notes := s.notes,
         activities := s.activities } : TripStop)) stops stopIds).length = stops.length := by
    rw [List.length_zipWith, hslen, Nat.min_self]
  have hzalen : (List.zipWith (fun (a : TripActivity) (fid : String) =>
      ({ id := fid,
         trip_stop_id :=
           (((stops.map (fun s => s.id)).zip stopIds).lookup a.trip_stop_id).getD "",
         activity_id := a.activity_id, name := a.name, description := a.description,
         scheduled_date := a.scheduled_date, scheduled_time := a.scheduled_time,
         duration_hours := a.duration_hours, estimated_cost := a.estimated_cost,
         order_index := jsOrInt a.order_index 0, category := a.category,
         is_custom := a.is_custom } : TripActivity)) activities actIds).length =
      activities.length := by
    rw [List.length_zipWith, halen, Nat.min_self]
  refine ⟨rfl, hzslen, ?_, hzalen, ?_, ?_⟩
  · intro i hi
    have hi2 : i < _ := hzslen ▸ hi
    rw [List.getD_eq_getElem _ default hi2, List.getD_eq_getElem stops default hi,
        List.getD_eq_getElem stopIds "" (by omega)]
    rw [List.getElem_zipWith]
    rw [jsOrInt_zero]
  · intro j hj
    have hj2 : j < _ := hzalen ▸ hj
    rw [List.getD_eq_getElem _ default hj2, List.getD_eq_getElem activities default hj,
        List.getD_eq_getElem actIds "" (by omega)]
    rw [List.getElem_zipWith]
    rw [jsOrInt_zero]
  · intro i hi
    have hi2 : i < _ := hzslen ▸ hi
    have hisid : i < stopIds.length := by omega
    have hid_i : ((List.zipWith (fun (s : TripStop) (fid : String) =>
        ({ id := fid, trip_id := newTripId, city_id := s.city_id, city_name := s.city_name,
           country := s.country, start_date := s.start_date, end_date := s.end_date,
           order_index := jsOrInt s.order_index 0, transport_cost := s.transport_cost,
           accommodation_cost := s.accommodation_cost, notes := s.notes,
           activities := s.activities } : TripStop)) stops stopIds).getD i default).id =
        stopIds[i] := by
      rw [List.getD_eq_getElem _ default hi2, List.getElem_zipWith]
    rw [hid_i, List.getD_eq_getElem stops default hi]
    rw [← List.countP_eq_length_filter, ← List.countP_eq_length_filter]
    rw [countP_zipWith_left _ _
      (fun a => (((stops.map (fun s => s.id)).zip stopIds).lookup a.trip_stop_id).getD "" ==
        stopIds[i]) activities actIds halen.symm (fun a _ b => rfl)]
    apply List.countP_congr
    intro a ha
    obtain ⟨m, hm⟩ := List.mem_iff_get.mp (href a ha)
    have hmlt : m.1 < stops.length := by simpa using m.2
    have hmsid : m.1 < stopIds.length := by omega
    have hflook : (((stops.map (fun s => s.id)).zip stopIds).lookup a.trip_stop_id) =
        some (stopIds.get ⟨m.1, hmsid⟩) := by
      rw [← hm]
      exact lookup_zip_eq (stops.map (fun s => s.id)) stopIds m.1 m.2 (by simp [hslen]) hids
    rw [hflook]
    simp only [Option.getD_some, beq_iff_eq]
    have hgm : a.trip_stop_id = (stops.map (fun s => s.id))[m.1] := by
      rw [← List.get_eq_getElem]
      exact hm.symm
    have hm2 : m.1 < (stops.map (fun s => s.id)).length := m.2
    have hilen : i < (stops.map (fun s => s.id)).length := by simpa using hi
    constructor
    · intro h
      have hmi : m.1 = i := by
        rw [List.get_eq_getElem] at h
        exact (List.Nodup.getElem_inj_iff hfresh).mp h
      subst hmi
      rw [hgm]
      exact List.getElem_map _
    · intro h
      have hmap_eq : (stops.map (fun s => s.id))[m.1] = (stops.map (fun s => s.id))[i] := by
        calc (stops.map (fun s => s.id))[m.1] = a.trip_stop_id := hgm.symm
          _ = stops[i].id := h
          _ = (stops.map (fun s => s.id))[i] := (List.getElem_map _).symm
      have hmi : m.1 = i := (List.Nodup.getElem_inj_iff hids).mp hmap_eq
      subst hmi
      rw [List.get_eq_getElem]

/-- Witness for `importRoundTrip`: the 2-stop trip with 3 and 2
activities; the reconstructed graph has 2 stops with 3 and 2 activities
attached to the corresponding new stops. -/
theorem importRoundTrip_witness :
    ((roundTripStops.map (fun s => s.id)).Nodup) ∧
    (∀ s ∈ roundTripStops, s.id ≠ "") ∧
    (["n1", "n2"] : List String).Nodup ∧
    (["n1", "n2"] : List String).length = roundTripStops.length ∧
    (∀ a ∈ roundTripActivities, a.trip_stop_id ∈ roundTripStops.map (fun s => s.id)) ∧
    (["m1", "m2", "m3", "m4", "m5"] : List String).length = roundTripActivities.length ∧
    (handleImport (exportTrip (mkTrip "t1" (some 19723) (some 19725)) roundTripStops
        roundTripActivities "2024-02-01") "u2" "t9" "sc999xyz" "2024-02-01" ["n1", "n2"]
        ["m1", "m2", "m3", "m4", "m5"]).2.1.length = roundTripStops.length ∧
    ∀ i : ℕ, i < roundTripStops.length →
      ((handleImport (exportTrip (mkTrip "t1" (some 19723) (some 19725)) roundTripStops
          roundTripActivities "2024-02-01") "u2" "t9" "sc999xyz" "2024-02-01" ["n1", "n2"]
          ["m1", "m2", "m3", "m4", "m5"]).2.2.filter (fun a =>
            a.trip_stop_id == ((handleImport (exportTrip (mkTrip "t1" (some 19723) (some 19725))
              roundTripStops roundTripActivities "2024-02-01") "u2" "t9" "sc999xyz" "2024-02-01"
              ["n1", "n2"] ["m1", "m2", "m3", "m4", "m5"]).2.1.getD i default).id)).length =
        (roundTripActivities.filter (fun a =>
          a.trip_stop_id == (roundTripStops.getD i default).id)).length := by
  have hmain := importRoundTrip (mkTrip "t1" (some 19723) (some 19725)) roundTripStops
    roundTripActivities "2024-02-01" "u2" "t9" "sc999xyz" "2024-02-01" ["n1", "n2"]
    ["m1", "m2", "m3", "m4", "m5"] (by decide) (by decide) (by decide) (by decide) (by decide)
    (by decide)
  exact ⟨by decide, by decide, by decide, by decide, by decide, by decide,
    hmain.2.1, hmain.2.2.2.2.2⟩
